import Mathlib

/-!
Shallow embedding of the client-side controller in `src/app/js/main.js`
(federal-tsp-data-exploration): application state, upload coordination,
filter controls, chart rendering, statistics rendering, and the remote
service client wrapper.  DOM writes are modelled as values of explicit
view structures; asynchronous service calls are modelled by passing the
settled outcome of the call as an explicit argument.
-/

/-- The `dataType` select control: one of `prices`, `returns` (main.js line 369). -/
inductive DataType where
  | prices
  | returns
deriving DecidableEq

/-- String value of the `dataType` control, as interpolated into messages
such as `No ${dataType} data loaded...` (main.js line 377). -/
def dtStr : DataType → String
  | .prices => "prices"
  | .returns => "returns"

/-- The `chartType` select control: one of `line`, `area` (main.js line 372). -/
inductive ChartType where
  | line
  | area
deriving DecidableEq

/-- Notification banner kind, the `type` argument of `showNotification`
(main.js line 588). -/
inductive NoteType where
  | success
  | error
  | warning
  | info
deriving DecidableEq

/-- A notification banner: message text and kind (main.js lines 588-618). -/
structure Note where
  msg : String
  kind : NoteType
deriving DecidableEq

/-- The global `dataLoaded = { prices: false, returns: false }` record
(main.js line 5). -/
structure DataLoaded where
  prices : Bool
  returns : Bool
deriving DecidableEq

/-- Outcome of an awaited `apiCall`: either the parsed JSON body, or the
error thrown by `apiCall` (transport failure or non-ok HTTP status),
carrying the error message (main.js lines 72-102). -/
inductive ServiceResult (α : Type) where
  | ok (body : α)
  | fail (msg : String)
deriving DecidableEq

/-- A JavaScript number-or-null-or-undefined field of a service response,
as read off a parsed JSON object: a present numeric value, an explicit
JSON `null`, or `undefined` (the key is absent). -/
inductive JNum where
  | num (q : ℚ)
  | null
  | undef
deriving DecidableEq

/-- JavaScript `x || 0` on a number-or-null-or-undefined value: `null` and
`undefined` are falsy and give `0`; a number gives itself (`0 || 0 = 0`)
(main.js line 668: `const change = stats.change || 0`). -/
def jsOrZero : JNum → ℚ
  | .num q => q
  | .null => 0
  | .undef => 0

/-- Reading a `JNum` as a number in a position that calls `.toFixed(2)` on
it: a numeric value succeeds; calling a method on `null` or `undefined`
throws a TypeError, modelled as `Except.error`. -/
def toNumber : JNum → Except Unit ℚ
  | .num q => .ok q
  | .null => .error ()
  | .undef => .error ()

/-- One fund's entry of a `StatisticsResponse`, as consumed by the
canonical (later, coverage-aware) `updateStatistics` (main.js lines
649-693): `current`/`change`/`min`/`max` may be absent. -/
structure FundStats where
  current : JNum
  change : JNum
  min : JNum
  max : JNum
  count : ℕ
  total_periods : ℕ
  data_coverage : ℚ
deriving DecidableEq

/-- The data-bearing stat card layout produced by the `else` branch of the
per-fund rendering (main.js lines 666-689): formatted current value
(currency iff `dataType = prices`), signed change line, coverage line,
and an optional min-max range line. -/
structure FullCard where
  fund : String
  isCurrency : Bool
  value : ℚ
  change : ℚ
  changeClass : String
  changeSymbol : String
  coverage : ℚ
  count : ℕ
  totalPeriods : ℕ
  range : Option (ℚ × ℚ)
deriving DecidableEq

/-- A rendered stat card: either the "No Data" layout (main.js lines
656-665) or the full data layout (lines 666-689). -/
inductive StatCard where
  | noData (fund : String) (coverage : ℚ)
  | full (c : FullCard)
deriving DecidableEq

/-- Per-fund stat-card rendering of the canonical `updateStatistics`
(main.js lines 649-693).  If `stats.current` is `null` or `undefined`,
the "No Data" card with the coverage percentage is built.  Otherwise the
full card is built: `change` is read as `stats.change || 0`, and the
range line is rendered when `stats.min !== null` — note that this guard
admits `undefined`, and that the branch then calls `.toFixed(2)` on
`stats.min` and `stats.max`, which throws on `null`/`undefined`
(modelled by `Except.error`; the throw is caught by the surrounding
try/catch of `updateStatistics`, which replaces the grid with an error
placeholder). -/
def renderStatCard (dt : DataType) (fund : String) (s : FundStats) :
    Except Unit StatCard :=
  if s.current = JNum.null ∨ s.current = JNum.undef then
    .ok (.noData fund s.data_coverage)
  else do
    let c ← toNumber s.current
    let ch := jsOrZero s.change
    let range ←
      if s.min ≠ JNum.null then do
        let mn ← toNumber s.min
        let mx ← toNumber s.max
        pure (some (mn, mx))
      else
        pure none
    .ok (.full
      { fund := fund
        isCurrency := decide (dt = DataType.prices)
        value := c
        change := ch
        changeClass :=
          if ch > 0 then "positive" else if ch < 0 then "negative" else "neutral"
        changeSymbol := if ch > 0 then "+" else ""
        coverage := s.data_coverage
        count := s.count
        totalPeriods := s.total_periods
        range := range })

/-- A date range of a loaded dataset, `date_range: {start, end}` as sent by
the service (main.js lines 197, 233-234).  Dates are modelled as natural
numbers (day-precision values); `new Date(x).toISOString().split('T')[0]`
is the identity on such canonical day values. -/
structure DateRange where
  dstart : ℕ
  dend : ℕ
deriving DecidableEq

/-- The state of one HTML date input: its `min`, `max` and `value`
attributes, each possibly unset (`value` unset models the empty
string, which is falsy in the `if (!input.value)` test). -/
structure DateInputState where
  min : Option ℕ
  max : Option ℕ
  value : Option ℕ
deriving DecidableEq

/-- `updateDateInputs(dateRange)` (main.js lines 232-252): sets the min/max
attributes of both date inputs to the range's endpoints unconditionally,
and populates the `value` only when the input currently holds no
value. -/
def updateDateInputs (r : DateRange) (s e : DateInputState) :
    DateInputState × DateInputState :=
  ({ min := some r.dstart
     max := some r.dend
     value := if s.value = none then some r.dstart else s.value },
   { min := some r.dstart
     max := some r.dend
     value := if e.value = none then some r.dend else e.value })

/-- Per-dataset info of a `DataInfo` response (`prices_info` /
`returns_info`), main.js lines 715, 759.  The fund-availability block only
feeds innerHTML text, so it is not needed for the date-bound claims and is
elided from the record. -/
structure DatasetInfo where
  record_count : ℕ
  date_range : DateRange
deriving DecidableEq

/-- The `/data-info` response body (main.js lines 703-807). -/
structure DataInfo where
  prices_loaded : Bool
  returns_loaded : Bool
  prices_info : Option DatasetInfo
  returns_info : Option DatasetInfo
deriving DecidableEq

/-- The effect of the canonical (later) `updateDataInfoDisplay` (main.js
lines 703-807) on the two date inputs.  If neither dataset is loaded the
function returns early.  `updateDateInputs` is invoked only inside the
`if (info.prices_loaded && info.prices_info)` branch (line 756); the
returns branch builds a card but never touches the date inputs, and the
active `dataType` is never consulted. -/
def updateDataInfoDisplay (info : DataInfo) (s e : DateInputState) :
    DateInputState × DateInputState :=
  if !info.prices_loaded && !info.returns_loaded then
    (s, e)
  else
    match info.prices_loaded, info.prices_info with
    | true, some pi => updateDateInputs pi.date_range s e
    | _, _ => (s, e)

/-- The fixed universe of five fund identifiers (main.js lines 4, 257,
495). -/
def allFunds : List String := ["GFund", "FFund", "CFund", "SFund", "IFund"]

/-- The filter-control portion of the application state: the
`selectedFunds` set (modelled as the list of checked identifiers), the
`dataType` and `chartType` selects, and the two date inputs. -/
structure FilterState where
  selectedFunds : List String
  dataType : DataType
  chartType : ChartType
  startInput : DateInputState
  endInput : DateInputState
deriving DecidableEq

/-- `resetFilters()` (main.js lines 493-507): reinitialize `selectedFunds`
to the full universe, set `dataType` to `prices` and `chartType` to
`line`, then `refreshDataInfo().then(...)` re-derives the date bounds
from a fresh `/data-info` fetch and re-renders via `updateChart`.
`refreshDataInfo` swallows its own fetch errors (lines 165-172), so the
`.then` continuation (the re-render) runs in either case; on a failed
fetch `updateDataInfoDisplay` is not reached and the inputs are
unchanged.  The returned `Bool` records that `updateChart` was
triggered. -/
def resetFilters (st : FilterState) (infoSvc : ServiceResult DataInfo) :
    FilterState × Bool :=
  let st1 : FilterState :=
    { st with
      selectedFunds := allFunds
      dataType := DataType.prices
      chartType := ChartType.line }
  match infoSvc with
  | .ok info =>
      let (s, e) := updateDataInfoDisplay info st1.startInput st1.endInput
      ({ st1 with startInput := s, endInput := e }, true)
  | .fail _ => (st1, true)

/-- One dataset of a `/chart-data` response: the fields the client reads
or passes through (`label`/`borderColor`/`data`; values may be `null`).
The Chart.js spread `...dataset` (main.js line 400) preserves all of
them. -/
structure ChartDataset where
  label : String
  borderColor : String
  data : List (Option ℚ)
deriving DecidableEq

/-- The `data` field of a `/chart-data` response: `{labels, datasets}`
(main.js lines 399, 411). -/
structure ChartPayload where
  labels : List String
  datasets : List ChartDataset
deriving DecidableEq

/-- A `/chart-data` response body (main.js lines 382-392). -/
structure ChartResp where
  success : Bool
  message : String
  data : ChartPayload
deriving DecidableEq

/-- A dataset after the presentation transform of main.js lines 399-408:
the spread of the original dataset (`base`) plus the fixed presentation
attributes. -/
structure RenderedDataset where
  base : ChartDataset
  fill : Bool
  tension : ℚ
  pointRadius : ℕ
  pointHoverRadius : ℕ
  borderWidth : ℕ
  pointBackgroundColor : String
  pointBorderColor : String
deriving DecidableEq

/-- The pure per-dataset transform of main.js lines 399-408:
`fill: chartType === 'area'`, `tension: 0.1`, `pointRadius: 2`,
`pointHoverRadius: 6`, `borderWidth: 2`, and point colors mirroring
`dataset.borderColor`. -/
def transformDataset (ct : ChartType) (d : ChartDataset) : RenderedDataset :=
  { base := d
    fill := decide (ct = ChartType.area)
    tension := 1 / 10
    pointRadius := 2
    pointHoverRadius := 6
    borderWidth := 2
    pointBackgroundColor := d.borderColor
    pointBorderColor := d.borderColor }

/-- The chart widget's rendered state: label array, dataset array, chart
panel title and y-axis title (main.js lines 395-396, 411-417). -/
structure ChartView where
  labels : List String
  datasets : List RenderedDataset
  title : String
  yTitle : String
deriving DecidableEq

/-- The observable outcome of one `updateChart()` run: the chart state
afterwards, the endpoints called, the notifications shown, and whether
`updateStatistics()` was triggered (main.js line 420). -/
structure ChartOutcome where
  chart : ChartView
  calls : List String
  notes : List Note
  statsTriggered : Bool
deriving DecidableEq

/-- The guard condition of main.js lines 375-376 (also lines 538-539):
`(dataType === 'prices' && !dataLoaded.prices) ||
(dataType === 'returns' && !dataLoaded.returns)`. -/
def missingData (dt : DataType) (l : DataLoaded) : Bool :=
  match dt with
  | .prices => !l.prices
  | .returns => !l.returns

/-- `updateChart()` (main.js lines 367-426).  If the guard fires: a
warning notification, no service call, chart untouched, statistics not
triggered.  If the awaited `apiCall` throws: `apiCall` has already shown
its own `Error: ...` notification, the catch block (line 424) shows
another, and the chart is untouched.  On `success:false`: an error
notification with the service message, chart untouched, early return
before statistics.  On success: labels and datasets are replaced
wholesale (datasets through `transformDataset`), titles updated from
`dataType`, and `updateStatistics()` is triggered unconditionally. -/
def updateChart (l : DataLoaded) (dt : DataType) (ct : ChartType)
    (cv : ChartView) (svc : ServiceResult ChartResp) : ChartOutcome :=
  if missingData dt l then
    { chart := cv
      calls := []
      notes := [⟨"No " ++ dtStr dt ++ " data loaded. Please upload a CSV file first.",
                 NoteType.warning⟩]
      statsTriggered := false }
  else
    match svc with
    | .fail m =>
        { chart := cv
          calls := ["/chart-data"]
          notes := [⟨"Error: " ++ m, NoteType.error⟩,
                    ⟨"Error updating chart. Please try again.", NoteType.error⟩]
          statsTriggered := false }
    | .ok resp =>
        if !resp.success then
          { chart := cv
            calls := ["/chart-data"]
            notes := [⟨"Error getting chart data: " ++ resp.message, NoteType.error⟩]
            statsTriggered := false }
        else
          { chart :=
              { labels := resp.data.labels
                datasets := resp.data.datasets.map (transformDataset ct)
                title :=
                  if dt = DataType.prices then "📈 Share Price Analysis"
                  else "📈 Return Rate Analysis"
                yTitle :=
                  if dt = DataType.prices then "Price ($)" else "Return Rate (%)" }
            calls := ["/chart-data"]
            notes := []
            statsTriggered := true }

/-- An upload / sample-load response body: the service-level `success`
flag (distinct from the HTTP status) and its message (main.js lines
112, 118). -/
structure UploadResp where
  success : Bool
  message : String
deriving DecidableEq

/-- `uploadPricesFile(file)` (main.js lines 105-123), projected onto the
`dataLoaded` flags, the notifications shown, and the number of requests
sent to the upload endpoint.  On `success:true` the prices flag is set
(the follow-up `refreshDataInfo`/`updateChart` hit other endpoints);
on `success:false` a failure notification carrying the service message
is shown; on a thrown `apiCall` (which already showed its own
notification) the catch only logs.  In every path the upload endpoint is
called exactly once — no retry. -/
def uploadPricesFile (l : DataLoaded) (svc : ServiceResult UploadResp) :
    DataLoaded × List Note × ℕ :=
  match svc with
  | .fail m => (l, [⟨"Error: " ++ m, NoteType.error⟩], 1)
  | .ok r =>
      if r.success then
        ({ l with prices := true },
         [⟨"Prices data loaded successfully!", NoteType.success⟩], 1)
      else
        (l, [⟨"Error loading prices: " ++ r.message, NoteType.error⟩], 1)

/-- `uploadReturnsFile(file)` (main.js lines 125-143), same shape as
`uploadPricesFile` with the returns flag and endpoint. -/
def uploadReturnsFile (l : DataLoaded) (svc : ServiceResult UploadResp) :
    DataLoaded × List Note × ℕ :=
  match svc with
  | .fail m => (l, [⟨"Error: " ++ m, NoteType.error⟩], 1)
  | .ok r =>
      if r.success then
        ({ l with returns := true },
         [⟨"Returns data loaded successfully!", NoteType.success⟩], 1)
      else
        (l, [⟨"Error loading returns: " ++ r.message, NoteType.error⟩], 1)

/-- `loadSampleData()` (main.js lines 146-162): on `success:true` both
flags are set; failure paths mirror the upload handlers. -/
def loadSampleData (l : DataLoaded) (svc : ServiceResult UploadResp) :
    DataLoaded × List Note × ℕ :=
  match svc with
  | .fail m => (l, [⟨"Error: " ++ m, NoteType.error⟩], 1)
  | .ok r =>
      if r.success then
        (⟨true, true⟩,
         [⟨"Sample data loaded successfully!", NoteType.success⟩], 1)
      else
        (l, [⟨"Error loading sample data: " ++ r.message, NoteType.error⟩], 1)

/-- An observable UI/network event: the loading overlay being set
visible/hidden (`showLoading`, main.js lines 583-586), a request being
issued, or a notification being shown. -/
inductive Ev where
  | loading (visible : Bool)
  | request (endpoint : String)
  | note (n : Note)
deriving DecidableEq

/-- The settled outcome of the `fetch`+`json()` pair inside `apiCall`:
a parsed body with `response.ok`, a parsed body with a non-ok HTTP
status (carrying its optional `message` field), or a thrown transport /
parse error with its message. -/
inductive FetchOutcome (α : Type) where
  | ok (body : α)
  | httpError (message : Option String)
  | netFail (message : String)
deriving DecidableEq

/-- `apiCall(endpoint, method, data)` (main.js lines 72-102), as the
ordered trace of events it produces plus its result.  `showLoading(true)`
runs before the `fetch`; the `catch` block shows a notification and
re-throws; the `finally` block runs `showLoading(false)` after the catch
in every path.  On a non-ok HTTP status the thrown message is
`result.message || 'API request failed'`. -/
def apiCall {α : Type} (endpoint : String) (out : FetchOutcome α) :
    List Ev × Except String α :=
  match out with
  | .ok body =>
      ([.loading true, .request endpoint, .loading false], .ok body)
  | .httpError msg =>
      let m := msg.getD "API request failed"
      ([.loading true, .request endpoint,
        .note ⟨"Error: " ++ m, NoteType.error⟩, .loading false],
       .error m)
  | .netFail m =>
      ([.loading true, .request endpoint,
        .note ⟨"Error: " ++ m, NoteType.error⟩, .loading false],
       .error m)

/-- Visibility of the loading overlay after replaying a trace of events
over an initial visibility: each `showLoading(b)` overwrites the
overlay's display (main.js lines 583-586). -/
def loadingAfter (evs : List Ev) (v : Bool) : Bool :=
  evs.foldl (fun acc ev => match ev with | .loading b => b | _ => acc) v

/-- `exportData()` (main.js lines 531-580), as its event trace and
notifications.  The availability guard (lines 538-541) fires before
`showLoading`/`fetch`; otherwise a raw `fetch` of `/export` is wrapped in
`showLoading(true)` ... `finally showLoading(false)`, with a success or
error notification. -/
def exportData (l : DataLoaded) (dt : DataType) (svc : ServiceResult Unit) :
    List Ev × List Note :=
  if missingData dt l then
    ([], [⟨"No " ++ dtStr dt ++ " data loaded to export", NoteType.warning⟩])
  else
    match svc with
    | .ok _ =>
        ([.loading true, .request "/export", .loading false],
         [⟨"Data exported successfully!", NoteType.success⟩])
    | .fail _ =>
        ([.loading true, .request "/export", .loading false],
         [⟨"Error exporting data", NoteType.error⟩])

/-- The operations of the controller that run within a session, each with
the settled outcome of the service call it awaits where that call can
touch `dataLoaded`.  `chartUpdate`, `statsUpdate`, `dataInfoRefresh`,
`reset`, `exportCsv` and `exportPng` contain no assignment to
`dataLoaded` anywhere in their bodies (main.js lines 367-426, 621-700,
165-172, 493-507, 531-580, 510-528). -/
inductive Op where
  | upPrices (svc : ServiceResult UploadResp)
  | upReturns (svc : ServiceResult UploadResp)
  | sample (svc : ServiceResult UploadResp)
  | chartUpdate
  | statsUpdate
  | dataInfoRefresh
  | reset
  | exportCsv
  | exportPng
deriving DecidableEq

/-- The effect of one operation on the `dataLoaded` record: the three
load operations go through their handlers; every other operation reads
the flags at most (in the `missingData` guard) and never writes them. -/
def stepLoaded : Op → DataLoaded → DataLoaded
  | .upPrices svc, l => (uploadPricesFile l svc).1
  | .upReturns svc, l => (uploadReturnsFile l svc).1
  | .sample svc, l => (loadSampleData l svc).1
  | .chartUpdate, l => l
  | .statsUpdate, l => l
  | .dataInfoRefresh, l => l
  | .reset, l => l
  | .exportCsv, l => l
  | .exportPng, l => l

/-- A statistics entry with data but with `min`/`max` absent as
`undefined` (their keys missing from the JSON object). -/
def sUndefMin : FundStats :=
  { current := .num 10, change := .num 1, min := .undef, max := .undef,
    count := 5, total_periods := 10, data_coverage := 50 }

/-- A statistics entry with `current` absent and `min`/`max` sent as
explicit nulls. -/
def sNoData : FundStats :=
  { current := .null, change := .undef, min := .null, max := .null,
    count := 0, total_periods := 4, data_coverage := 25 }

/-- A `/data-info` response with both datasets loaded and distinct
observed date ranges: prices cover days 100-200, returns days
300-400. -/
def cexInfo : DataInfo :=
  { prices_loaded := true
    returns_loaded := true
    prices_info := some { record_count := 4, date_range := ⟨100, 200⟩ }
    returns_info := some { record_count := 4, date_range := ⟨300, 400⟩ } }

/-- A date input with nothing set. -/
def cexInput : DateInputState := { min := none, max := none, value := none }

/-- An empty chart view (the chart as initialized, main.js lines
291-296). -/
def cv0 : ChartView := { labels := [], datasets := [], title := "", yTitle := "Value" }

/-- A successful `/chart-data` response with 3 labels and two datasets of
length 3. -/
def resp3 : ChartResp :=
  { success := true
    message := ""
    data :=
      { labels := ["2024-01-01", "2024-01-02", "2024-01-03"]
        datasets :=
          [ { label := "GFund", borderColor := "#2196f3",
              data := [some 1, none, some 3] },
            { label := "FFund", borderColor := "#4caf50",
              data := [some 4, some 5, some 6] } ] } }

/-- A `/chart-data` response with `success:false`. -/
def respFail : ChartResp :=
  { success := false, message := "no data in range", data := { labels := [], datasets := [] } }

/-- A prior filter state with every control away from its default. -/
def stPrior : FilterState :=
  { selectedFunds := ["IFund"]
    dataType := DataType.returns
    chartType := ChartType.area
    startInput := { min := some 1, max := some 9, value := some 5 }
    endInput := { min := some 1, max := some 9, value := some 7 } }

/-- Claim C1, counterexample.  The claim states that the renderer never
throws on a missing `min`.  Take a statistics entry whose `current` is
present and whose `min` and `max` keys are absent (`undefined`): the
guard `stats.min !== null` of main.js line 683 is satisfied by
`undefined`, so the range line is evaluated and
`stats.min.toFixed(2)` throws a TypeError — the rendering fails instead
of producing a card. -/
theorem statCard_throws_on_undefined_min :
    renderStatCard DataType.prices "GFund" sUndefMin = Except.error () := rfl

/-- Claim C1, amended.  For a statistics entry whose absent `min`/`max`
are encoded as explicit nulls (precisely: `min` is null, or `min` and
`max` are both numbers), the renderer never throws; when `current` is
absent (null or undefined) the card is the "No Data" layout with the
coverage percentage only; when `current` is present the card is the full
layout where a missing `change` is displayed as `change || 0` (zero,
without mutating the entry — the rendering is a pure function of it) and
the min-max range line is rendered exactly when `min` is not null. -/
theorem statCard_render_amended (dt : DataType) (fund : String) (s : FundStats)
    (hsafe : s.min = JNum.null ∨ ∃ mq xq, s.min = JNum.num mq ∧ s.max = JNum.num xq) :
    (∃ card, renderStatCard dt fund s = Except.ok card) ∧
    ((s.current = JNum.null ∨ s.current = JNum.undef) →
       renderStatCard dt fund s = Except.ok (StatCard.noData fund s.data_coverage)) ∧
    (∀ c, s.current = JNum.num c →
       renderStatCard dt fund s = Except.ok (StatCard.full
         { fund := fund
           isCurrency := decide (dt = DataType.prices)
           value := c
           change := jsOrZero s.change
           changeClass :=
             if jsOrZero s.change > 0 then "positive"
             else if jsOrZero s.change < 0 then "negative" else "neutral"
           changeSymbol := if jsOrZero s.change > 0 then "+" else ""
           coverage := s.data_coverage
           count := s.count
           totalPeriods := s.total_periods
           range :=
             match s.min, s.max with
             | JNum.num mq, JNum.num xq => some (mq, xq)
             | _, _ => none })) ∧
    ((s.change = JNum.null ∨ s.change = JNum.undef) → jsOrZero s.change = 0) := by
  obtain ⟨cur, chg, mn, mx, cnt, tot, cov⟩ := s
  refine ⟨?_, ?_, ?_, ?_⟩
  · cases hcur : cur with
    | null => subst hcur; exact ⟨StatCard.noData fund cov, rfl⟩
    | undef => subst hcur; exact ⟨StatCard.noData fund cov, rfl⟩
    | num c =>
        rcases hsafe with hnull | ⟨mq, xq, hmin, hmax⟩
        · subst hnull
          exact ⟨_, rfl⟩
        · simp only at hmin hmax
          subst hmin; subst hmax
          exact ⟨_, rfl⟩
  · rintro (hcur | hcur) <;> simp only at hcur <;> subst hcur <;> simp [renderStatCard]
  · intro c hcur
    simp only at hcur
    subst hcur
    rcases hsafe with hnull | ⟨mq, xq, hmin, hmax⟩
    · simp only at hnull
      subst hnull
      rfl
    · simp only at hmin hmax
      subst hmin; subst hmax
      rfl
  · rintro (hchg | hchg) <;> simp only at hchg <;> subst hchg <;> rfl

/-- Claim C1, witness: a concrete no-data entry (nulls, `change`
undefined) renders as the "No Data" card with its coverage percentage,
and its missing `change` reads as zero. -/
theorem statCard_render_amended_witness :
    renderStatCard DataType.returns "GFund" sNoData =
      Except.ok (StatCard.noData "GFund" 25) ∧
    jsOrZero sNoData.change = 0 :=
  have h := statCard_render_amended DataType.returns "GFund" sNoData (Or.inl rfl)
  ⟨h.2.1 (Or.inl rfl), h.2.2.2 (Or.inr rfl)⟩

/-- Claim C2, counterexample.  The claim says the date-input bounds track
the observed range of the active `dataType`.  Take a `DataInfo` refresh
with both datasets loaded, prices covering days 100-200 and returns days
300-400: `updateDataInfoDisplay` sets the bounds from the prices range
(it calls `updateDateInputs` only inside the prices branch, main.js
line 756, and never reads the `dataType` control), so with
`dataType = returns` active the bounds are 100-200, not the returns
range 300-400. -/
theorem dateBounds_ignore_returns_range :
    (updateDataInfoDisplay cexInfo cexInput cexInput).1.min = some 100 ∧
    (updateDataInfoDisplay cexInfo cexInput cexInput).1.min ≠ some 300 ∧
    (updateDataInfoDisplay cexInfo cexInput cexInput).2.max = some 200 ∧
    (updateDataInfoDisplay cexInfo cexInput cexInput).2.max ≠ some 400 := by
  decide

/-- Claim C2, amended.  After a `DataInfo` refresh the date-input bounds
are recomputed from the *prices* dataset's observed range whenever
prices are loaded (and its info object is present), irrespective of the
active `dataType`; default values are populated only into an empty
input; when prices are not loaded (or carry no info object) the inputs
are left entirely unchanged — in particular a returns-only refresh never
updates the bounds. -/
theorem dateBounds_from_prices_range (info : DataInfo) (s e : DateInputState) :
    (∀ pi, info.prices_loaded = true → info.prices_info = some pi →
       updateDataInfoDisplay info s e = updateDateInputs pi.date_range s e ∧
       (updateDataInfoDisplay info s e).1.min = some pi.date_range.dstart ∧
       (updateDataInfoDisplay info s e).1.max = some pi.date_range.dend ∧
       (updateDataInfoDisplay info s e).2.min = some pi.date_range.dstart ∧
       (updateDataInfoDisplay info s e).2.max = some pi.date_range.dend ∧
       (s.value = none →
          (updateDataInfoDisplay info s e).1.value = some pi.date_range.dstart) ∧
       (∀ v, s.value = some v → (updateDataInfoDisplay info s e).1.value = some v) ∧
       (e.value = none →
          (updateDataInfoDisplay info s e).2.value = some pi.date_range.dend) ∧
       (∀ v, e.value = some v → (updateDataInfoDisplay info s e).2.value = some v)) ∧
    ((info.prices_loaded = false ∨ info.prices_info = none) →
       updateDataInfoDisplay info s e = (s, e)) := by
  obtain ⟨pl, rl, pinfo, rinfo⟩ := info
  constructor
  · rintro pi hpl hpi
    simp only at hpl hpi
    subst hpl; subst hpi
    refine ⟨by simp [updateDataInfoDisplay], ?_⟩
    simp only [updateDataInfoDisplay, updateDateInputs, Bool.not_true, Bool.false_and,
      Bool.false_eq_true, if_false]
    refine ⟨trivial, trivial, trivial, trivial, ?_, ?_, ?_, ?_⟩
    · intro hv; simp [hv]
    · intro v hv; simp [hv]
    · intro hv; simp [hv]
    · intro v hv; simp [hv]
  · rintro (hpl | hpi)
    · simp only at hpl
      subst hpl
      cases rl <;> simp [updateDataInfoDisplay]
    · simp only at hpi
      subst hpi
      cases pl <;> cases rl <;> simp [updateDataInfoDisplay]

/-- Claim C2, witness: a concrete refresh with prices loaded over days
100-200 sets the start input's bounds to 100-200. -/
theorem dateBounds_from_prices_range_witness :
    updateDataInfoDisplay cexInfo cexInput cexInput =
      updateDateInputs ⟨100, 200⟩ cexInput cexInput :=
  ((dateBounds_from_prices_range cexInfo cexInput cexInput).1
    { record_count := 4, date_range := ⟨100, 200⟩ } rfl rfl).1

/-- Claim C3: if the selected `dataType` has no corresponding dataset
loaded, `updateChart` issues no network call, shows exactly the warning
notification, and leaves the chart untouched and the statistics
renderer untriggered (main.js lines 375-379). -/
theorem updateChart_guard_no_call (l : DataLoaded) (dt : DataType) (ct : ChartType)
    (cv : ChartView) (svc : ServiceResult ChartResp)
    (h : missingData dt l = true) :
    updateChart l dt ct cv svc =
      { chart := cv
        calls := []
        notes := [⟨"No " ++ dtStr dt ++ " data loaded. Please upload a CSV file first.",
                   NoteType.warning⟩]
        statsTriggered := false } := by
  simp [updateChart, h]

/-- Claim C3, witness: with nothing loaded and `prices` selected, a chart
update performs no call and warns. -/
theorem updateChart_guard_no_call_witness :
    updateChart ⟨false, false⟩ DataType.prices ChartType.line cv0 (.fail "unreachable") =
      { chart := cv0
        calls := []
        notes := [⟨"No prices data loaded. Please upload a CSV file first.",
                   NoteType.warning⟩]
        statsTriggered := false } :=
  updateChart_guard_no_call ⟨false, false⟩ DataType.prices ChartType.line cv0
    (.fail "unreachable") rfl

/-- Claim C4: for both upload handlers, a `success:false` response with
message `m` leaves both `dataLoaded` flags unchanged, keeps the upload
endpoint at exactly one request (no retry), and shows an error
notification whose text contains `m` (it is the fixed prefix followed by
`m`); a transport failure (thrown `apiCall`) likewise leaves the flags
unchanged with a single request and no retry. -/
theorem upload_failure_atomic (l : DataLoaded) (svc : ServiceResult UploadResp) :
    (∀ r, svc = ServiceResult.ok r → r.success = false →
       (uploadPricesFile l svc).1 = l ∧
       (uploadPricesFile l svc).2.2 = 1 ∧
       (⟨"Error loading prices: " ++ r.message, NoteType.error⟩ : Note) ∈
         (uploadPricesFile l svc).2.1 ∧
       (uploadReturnsFile l svc).1 = l ∧
       (uploadReturnsFile l svc).2.2 = 1 ∧
       (⟨"Error loading returns: " ++ r.message, NoteType.error⟩ : Note) ∈
         (uploadReturnsFile l svc).2.1) ∧
    (∀ m, svc = ServiceResult.fail m →
       (uploadPricesFile l svc).1 = l ∧
       (uploadPricesFile l svc).2.2 = 1 ∧
       (uploadReturnsFile l svc).1 = l ∧
       (uploadReturnsFile l svc).2.2 = 1) := by
  constructor
  · rintro r rfl hr
    simp [uploadPricesFile, uploadReturnsFile, hr]
  · rintro m rfl
    simp [uploadPricesFile, uploadReturnsFile]

/-- Claim C4, witness: the spec's own example — a rejected upload with
message "bad header" leaves availability unchanged and surfaces the
message. -/
theorem upload_failure_atomic_witness :
    (uploadPricesFile ⟨true, false⟩ (.ok ⟨false, "bad header"⟩)).1 = ⟨true, false⟩ ∧
    (⟨"Error loading prices: bad header", NoteType.error⟩ : Note) ∈
      (uploadPricesFile ⟨true, false⟩ (.ok ⟨false, "bad header"⟩)).2.1 :=
  have h := (upload_failure_atomic ⟨true, false⟩ (.ok ⟨false, "bad header"⟩)).1
    ⟨false, "bad header"⟩ rfl rfl
  ⟨h.1, h.2.2.1⟩

/-- Claim C5: on a successful `ChartResponse`, the rendered chart's
labels are the response's labels and its series are exactly the mapped
datasets: as many series as returned datasets, each of the original
length, with fill enabled iff `chartType` is area, point radius 2, hover
radius 6, point colors equal to the dataset's `borderColor`, and the
original dataset fields preserved intact under `base` (the transform is
a pure function of the dataset); statistics are then triggered. -/
theorem updateChart_success_render (l : DataLoaded) (dt : DataType) (ct : ChartType)
    (cv : ChartView) (resp : ChartResp)
    (hg : missingData dt l = false) (hs : resp.success = true) :
    ((updateChart l dt ct cv (.ok resp)).chart.labels = resp.data.labels) ∧
    ((updateChart l dt ct cv (.ok resp)).chart.datasets =
       resp.data.datasets.map (transformDataset ct)) ∧
    ((updateChart l dt ct cv (.ok resp)).chart.datasets.length =
       resp.data.datasets.length) ∧
    ((updateChart l dt ct cv (.ok resp)).statsTriggered = true) ∧
    (∀ d ∈ resp.data.datasets,
       (transformDataset ct d).base = d ∧
       ((transformDataset ct d).fill = true ↔ ct = ChartType.area) ∧
       (transformDataset ct d).pointRadius = 2 ∧
       (transformDataset ct d).pointHoverRadius = 6 ∧
       (transformDataset ct d).pointBackgroundColor = d.borderColor ∧
       (transformDataset ct d).pointBorderColor = d.borderColor) ∧
    (∀ n, (∀ d ∈ resp.data.datasets, d.data.length = n) →
       ∀ rd ∈ (updateChart l dt ct cv (.ok resp)).chart.datasets,
         rd.base.data.length = n) := by
  refine ⟨?_, ?_, ?_, ?_, ?_, ?_⟩
  · simp [updateChart, hg, hs]
  · simp [updateChart, hg, hs]
  · simp [updateChart, hg, hs]
  · simp [updateChart, hg, hs]
  · intro d _
    exact ⟨rfl, by simp [transformDataset], rfl, rfl, rfl, rfl⟩
  · intro n hn rd hrd
    simp only [updateChart, hg, Bool.false_eq_true, if_false, hs, Bool.not_true] at hrd
    rw [List.mem_map] at hrd
    obtain ⟨d, hd, rfl⟩ := hrd
    exact hn d hd

/-- Claim C5, witness: the spec's example — 3 labels and two datasets of
length 3 render as exactly 2 series of length 3, with fill on for the
area chart type. -/
theorem updateChart_success_render_witness :
    ((updateChart ⟨true, true⟩ DataType.prices ChartType.area cv0 (.ok resp3)).chart.datasets.length
       = 2) ∧
    (∀ rd ∈ (updateChart ⟨true, true⟩ DataType.prices ChartType.area cv0
        (.ok resp3)).chart.datasets, rd.base.data.length = 3) :=
  have h := updateChart_success_render ⟨true, true⟩ DataType.prices ChartType.area cv0
    resp3 rfl rfl
  ⟨h.2.2.1.trans rfl, h.2.2.2.2.2 3 (by decide)⟩

/-- Claim C7: on a `success:false` chart-data response (with the guard
passed), `updateChart` shows exactly the error notification carrying the
service message and leaves the previously rendered chart untouched; and
the statistics renderer is triggered exactly when the chart update
succeeded (guard passed, call returned, `success:true`). -/
theorem updateChart_failure_frame (l : DataLoaded) (dt : DataType) (ct : ChartType)
    (cv : ChartView) (svc : ServiceResult ChartResp) :
    (∀ resp, svc = ServiceResult.ok resp → resp.success = false →
       missingData dt l = false →
       (updateChart l dt ct cv svc).chart = cv ∧
       (updateChart l dt ct cv svc).statsTriggered = false ∧
       (updateChart l dt ct cv svc).notes =
         [⟨"Error getting chart data: " ++ resp.message, NoteType.error⟩]) ∧
    ((updateChart l dt ct cv svc).statsTriggered = true ↔
       (missingData dt l = false ∧
        ∃ resp, svc = ServiceResult.ok resp ∧ resp.success = true)) := by
  constructor
  · rintro resp rfl hr hg
    simp [updateChart, hg, hr]
  · cases h : missingData dt l with
    | true => simp [updateChart, h]
    | false =>
        cases svc with
        | fail m => simp [updateChart, h]
        | ok resp =>
            cases hr : resp.success with
            | true => simp [updateChart, h, hr]
            | false => simp [updateChart, h, hr]

/-- Claim C7, witness: a concrete `success:false` response leaves the
chart as it was and does not trigger statistics. -/
theorem updateChart_failure_frame_witness :
    (updateChart ⟨true, true⟩ DataType.returns ChartType.line cv0 (.ok respFail)).chart = cv0 ∧
    (updateChart ⟨true, true⟩ DataType.returns ChartType.line cv0
      (.ok respFail)).statsTriggered = false :=
  have h := (updateChart_failure_frame ⟨true, true⟩ DataType.returns ChartType.line cv0
    (.ok respFail)).1 respFail rfl rfl rfl
  ⟨h.1, h.2.1⟩

/-- Claim C6: for every prior state, `resetFilters` restores
`selectedFunds` to the full five-fund universe, `dataType` to prices and
`chartType` to line, triggers a re-render, and — when the fresh
`/data-info` fetch succeeds — re-derives the date inputs from it via
`updateDataInfoDisplay`. -/
theorem resetFilters_restores_defaults (st : FilterState) (svc : ServiceResult DataInfo) :
    ((resetFilters st svc).1.selectedFunds = allFunds) ∧
    ((resetFilters st svc).1.dataType = DataType.prices) ∧
    ((resetFilters st svc).1.chartType = ChartType.line) ∧
    ((resetFilters st svc).2 = true) ∧
    (∀ info, svc = ServiceResult.ok info →
       ((resetFilters st svc).1.startInput, (resetFilters st svc).1.endInput) =
         updateDataInfoDisplay info st.startInput st.endInput) := by
  cases svc with
  | fail m => simp [resetFilters]
  | ok info =>
      cases hde : updateDataInfoDisplay info st.startInput st.endInput with
      | mk s e =>
          refine ⟨?_, ?_, ?_, ?_, ?_⟩ <;>
            simp [resetFilters, hde]

/-- Claim C6, witness: resetting from a fully non-default prior state
restores the defaults and re-derives the bounds from the fetched
info. -/
theorem resetFilters_restores_defaults_witness :
    ((resetFilters stPrior (.ok cexInfo)).1.selectedFunds = allFunds) ∧
    ((resetFilters stPrior (.ok cexInfo)).1.dataType = DataType.prices) ∧
    ((resetFilters stPrior (.ok cexInfo)).1.chartType = ChartType.line) ∧
    (((resetFilters stPrior (.ok cexInfo)).1.startInput,
      (resetFilters stPrior (.ok cexInfo)).1.endInput) =
        updateDataInfoDisplay cexInfo stPrior.startInput stPrior.endInput) :=
  have h := resetFilters_restores_defaults stPrior (.ok cexInfo)
  ⟨h.1, h.2.1, h.2.2.1, h.2.2.2.2 cexInfo rfl⟩

/-- Claim C8: every `apiCall` trace shows the loading overlay before the
request is issued and hides it as its final event, in every settled
outcome (success, non-ok HTTP status, thrown transport error), so
replaying the trace over any prior overlay state ends with the overlay
hidden; and every failing call both surfaces an `Error: ...`
notification and re-throws the same message to the caller. -/
theorem apiCall_loading_scoped {α : Type} (endpoint : String) (out : FetchOutcome α) :
    (∃ rest, (apiCall endpoint out).1 =
       Ev.loading true :: Ev.request endpoint :: rest) ∧
    ((apiCall endpoint out).1.getLast? = some (Ev.loading false)) ∧
    (∀ v, loadingAfter (apiCall endpoint out).1 v = false) ∧
    (∀ m, (apiCall endpoint out).2 = Except.error m →
       Ev.note ⟨"Error: " ++ m, NoteType.error⟩ ∈ (apiCall endpoint out).1) := by
  cases out with
  | ok body =>
      refine ⟨⟨[Ev.loading false], rfl⟩, rfl, fun v => rfl, ?_⟩
      rintro m hm
      simp [apiCall] at hm
  | httpError msg =>
      refine ⟨⟨_, rfl⟩, rfl, fun v => rfl, ?_⟩
      rintro m hm
      simp only [apiCall, Except.error.injEq] at hm
      subst hm
      simp [apiCall]
  | netFail m0 =>
      refine ⟨⟨_, rfl⟩, rfl, fun v => rfl, ?_⟩
      rintro m hm
      simp only [apiCall, Except.error.injEq] at hm
      subst hm
      simp [apiCall]

/-- Claim C8, witness: a thrown fetch still ends with the overlay hidden
and surfaces its message. -/
theorem apiCall_loading_scoped_witness :
    (loadingAfter (apiCall "/statistics"
        (FetchOutcome.netFail "Failed to fetch" : FetchOutcome Unit)).1 true = false) ∧
    (Ev.note ⟨"Error: Failed to fetch", NoteType.error⟩ ∈
       (apiCall "/statistics"
         (FetchOutcome.netFail "Failed to fetch" : FetchOutcome Unit)).1) :=
  have h := apiCall_loading_scoped "/statistics"
    (FetchOutcome.netFail "Failed to fetch" : FetchOutcome Unit)
  ⟨h.2.2.1 true, h.2.2.2 "Failed to fetch" rfl⟩

/-- Claim C9: the `dataLoaded` flags are monotone across every modelled
operation of a session — each operation leaves each flag unchanged or
sets it to true, never resets one to false — and a flag can newly become
true only through a `success:true` response of the corresponding upload
handler or of the sample-data loader. -/
theorem dataLoaded_monotone (op : Op) (l : DataLoaded) :
    ((stepLoaded op l).prices = l.prices ∨ (stepLoaded op l).prices = true) ∧
    ((stepLoaded op l).returns = l.returns ∨ (stepLoaded op l).returns = true) ∧
    (l.prices = true → (stepLoaded op l).prices = true) ∧
    (l.returns = true → (stepLoaded op l).returns = true) ∧
    ((stepLoaded op l).prices = true →
       l.prices = true ∨
       ∃ r, (op = Op.upPrices (ServiceResult.ok r) ∨ op = Op.sample (ServiceResult.ok r)) ∧
         r.success = true) ∧
    ((stepLoaded op l).returns = true →
       l.returns = true ∨
       ∃ r, (op = Op.upReturns (ServiceResult.ok r) ∨ op = Op.sample (ServiceResult.ok r)) ∧
         r.success = true) := by
  obtain ⟨lp, lr⟩ := l
  cases op with
  | upPrices svc =>
      cases svc with
      | fail m =>
          exact ⟨Or.inl rfl, Or.inl rfl, fun h => h, fun h => h,
                 fun h => Or.inl h, fun h => Or.inl h⟩
      | ok r =>
          obtain ⟨rs, rm⟩ := r
          cases rs with
          | false =>
              exact ⟨Or.inl rfl, Or.inl rfl, fun h => h, fun h => h,
                     fun h => Or.inl h, fun h => Or.inl h⟩
          | true =>
              exact ⟨Or.inr rfl, Or.inl rfl, fun _ => rfl, fun h => h,
                     fun _ => Or.inr ⟨⟨true, rm⟩, Or.inl rfl, rfl⟩, fun h => Or.inl h⟩
  | upReturns svc =>
      cases svc with
      | fail m =>
          exact ⟨Or.inl rfl, Or.inl rfl, fun h => h, fun h => h,
                 fun h => Or.inl h, fun h => Or.inl h⟩
      | ok r =>
          obtain ⟨rs, rm⟩ := r
          cases rs with
          | false =>
              exact ⟨Or.inl rfl, Or.inl rfl, fun h => h, fun h => h,
                     fun h => Or.inl h, fun h => Or.inl h⟩
          | true =>
              exact ⟨Or.inl rfl, Or.inr rfl, fun h => h, fun _ => rfl,
                     fun h => Or.inl h, fun _ => Or.inr ⟨⟨true, rm⟩, Or.inl rfl, rfl⟩⟩
  | sample svc =>
      cases svc with
      | fail m =>
          exact ⟨Or.inl rfl, Or.inl rfl, fun h => h, fun h => h,
                 fun h => Or.inl h, fun h => Or.inl h⟩
      | ok r =>
          obtain ⟨rs, rm⟩ := r
          cases rs with
          | false =>
              exact ⟨Or.inl rfl, Or.inl rfl, fun h => h, fun h => h,
                     fun h => Or.inl h, fun h => Or.inl h⟩
          | true =>
              exact ⟨Or.inr rfl, Or.inr rfl, fun _ => rfl, fun _ => rfl,
                     fun _ => Or.inr ⟨⟨true, rm⟩, Or.inr rfl, rfl⟩,
                     fun _ => Or.inr ⟨⟨true, rm⟩, Or.inr rfl, rfl⟩⟩
  | chartUpdate =>
      exact ⟨Or.inl rfl, Or.inl rfl, fun h => h, fun h => h,
             fun h => Or.inl h, fun h => Or.inl h⟩
  | statsUpdate =>
      exact ⟨Or.inl rfl, Or.inl rfl, fun h => h, fun h => h,
             fun h => Or.inl h, fun h => Or.inl h⟩
  | dataInfoRefresh =>
      exact ⟨Or.inl rfl, Or.inl rfl, fun h => h, fun h => h,
             fun h => Or.inl h, fun h => Or.inl h⟩
  | reset =>
      exact ⟨Or.inl rfl, Or.inl rfl, fun h => h, fun h => h,
             fun h => Or.inl h, fun h => Or.inl h⟩
  | exportCsv =>
      exact ⟨Or.inl rfl, Or.inl rfl, fun h => h, fun h => h,
             fun h => Or.inl h, fun h => Or.inl h⟩
  | exportPng =>
      exact ⟨Or.inl rfl, Or.inl rfl, fun h => h, fun h => h,
             fun h => Or.inl h, fun h => Or.inl h⟩

/-- Claim C9, witness: a chart update leaves a loaded prices flag
loaded. -/
theorem dataLoaded_monotone_witness :
    (stepLoaded Op.chartUpdate ⟨true, false⟩).prices = true :=
  (dataLoaded_monotone Op.chartUpdate ⟨true, false⟩).2.2.1 rfl

/-- Claim C10: if the selected `dataType` has no corresponding dataset
loaded, `exportData` produces no event at all — no loading toggle and no
network request — and shows exactly the warning notification (main.js
lines 538-541; the guard runs before `showLoading`/`fetch`). -/
theorem exportData_guard_no_call (l : DataLoaded) (dt : DataType)
    (svc : ServiceResult Unit) (h : missingData dt l = true) :
    (exportData l dt svc).1 = [] ∧
    (exportData l dt svc).2 =
      [⟨"No " ++ dtStr dt ++ " data loaded to export", NoteType.warning⟩] := by
  simp [exportData, h]

/-- Claim C10, witness: exporting prices with only returns loaded issues
no request and warns. -/
theorem exportData_guard_no_call_witness :
    (exportData ⟨false, true⟩ DataType.prices (.ok ())).1 = [] ∧
    (exportData ⟨false, true⟩ DataType.prices (.ok ())).2 =
      [⟨"No prices data loaded to export", NoteType.warning⟩] :=
  exportData_guard_no_call ⟨false, true⟩ DataType.prices (.ok ()) rfl
